import Mathlib

/-!
Verification of the Argus pipeline core (obligation policy, verifier router,
translators, semantic guard, verifier drivers, verdict contract, repair loop,
CI integrity gates) against its natural-language specification.

The Python sources are shallowly embedded: pure functions become Lean
functions over an explicit Python-AST datatype; the external boundaries
(LLM replies, proof-engine subprocesses, environment variables) become
explicit oracle/environment parameters.
-/

/-! ## Generic string machinery (models of Python `str` / `re` operations) -/

def isWordChar (c : Char) : Bool :=
  c.isAlphanum || c = '_'

/-- Model of Python `str.lower()` for the ASCII texts handled by the pipeline. -/
def lowerStr (s : String) : String :=
  ⟨s.data.map Char.toLower⟩

def hasInfixAux (pat : List Char) : List Char → Bool
  | [] => pat.isEmpty
  | c :: rest => pat.isPrefixOf (c :: rest) || hasInfixAux pat rest

/-- Model of Python `pat in hay` (substring containment). -/
def strContains (hay pat : String) : Bool :=
  hasInfixAux pat.data hay.data

/-- Model of Python `str.title()` on ASCII identifiers: the first letter of
each alphabetic run is uppercased, the rest lowercased. -/
def titleChars : Bool → List Char → List Char
  | _, [] => []
  | prevAlpha, c :: rest =>
    (if c.isAlpha then (if prevAlpha then c.toLower else c.toUpper) else c)
      :: titleChars c.isAlpha rest

def titleStr (s : String) : String :=
  ⟨titleChars false s.data⟩

/-- Strip Lean-style line comments: model of `re.sub(r"--.*$", "", code, re.M)`.
The Bool flag records whether we are currently inside a comment. -/
def stripDashComments : Bool → List Char → List Char
  | _, [] => []
  | true, '\n' :: rest => '\n' :: stripDashComments false rest
  | true, _ :: rest => stripDashComments true rest
  | false, '-' :: '-' :: rest => stripDashComments true rest
  | false, c :: rest => c :: stripDashComments false rest

/-- Does the word `w` occur at the head of `s` with a word boundary after it? -/
def wordAtHead (w s : List Char) : Bool :=
  w.isPrefixOf s &&
    (match s.drop w.length with
     | [] => true
     | c :: _ => !isWordChar c)

/-- Scan `s` for a whole-word occurrence of `w`; the Bool argument records
whether the previous character was a word character (i.e. `\b` fails). -/
def hasWholeWordAux (w : List Char) : Bool → List Char → Bool
  | _, [] => false
  | prevWord, c :: rest =>
    (!prevWord && wordAtHead w (c :: rest)) || hasWholeWordAux w (isWordChar c) rest

/-- Model of `re.search(r"\bw\b", s)` for a word-characters-only pattern `w`. -/
def hasWholeWord (w s : String) : Bool :=
  hasWholeWordAux w.data false s.data

/-- Model of `semantic_guard._contains_sorry`: strip `--` line comments, then
search for the skip marker as a whole word. -/
def containsSkipMarker (code : String) : Bool :=
  hasWholeWord "sorry" ⟨stripDashComments false code.data⟩

/-- Does `(def|theorem|lemma|method)\s+fn\b` match at the head of `s`? -/
def functionSymbolAtHead (fn : List Char) (s : List Char) : Bool :=
  ["def", "theorem", "lemma", "method"].any fun kw =>
    let kwChars := kw.data
    kwChars.isPrefixOf s &&
      (let rest := s.drop kwChars.length
       let ws := rest.takeWhile Char.isWhitespace
       !ws.isEmpty && wordAtHead fn (rest.drop ws.length))

def containsFunctionSymbolAux (fn : List Char) : Bool → List Char → Bool
  | _, [] => false
  | prevWord, c :: rest =>
    (!prevWord && functionSymbolAtHead fn (c :: rest)) ||
      containsFunctionSymbolAux fn (isWordChar c) rest

/-- Model of `semantic_guard._contains_function_symbol`:
`re.search(rf"\b(def|theorem|lemma|method)\s+{fn}\b", translated_code)`. -/
def containsFunctionSymbol (translated_code fn : String) : Bool :=
  containsFunctionSymbolAux fn.data false translated_code.data

/-- Does `error` followed by an optional `s` and a word boundary sit at the
head of `s`? (tail of the positive-error-count regex). -/
def errorWordAtHead (s : List Char) : Bool :=
  "error".data.isPrefixOf s &&
    (match s.drop 5 with
     | [] => true
     | 's' :: rest2 =>
       (match rest2 with
        | [] => true
        | c :: _ => !isWordChar c)
     | c :: _ => !isWordChar c)

/-- Does `([1-9][0-9]*)\s+errors?\b` match at the head of `s`? -/
def positiveErrorCountAtHead (s : List Char) : Bool :=
  match s with
  | [] => false
  | c :: rest =>
    ('1' ≤ c && c ≤ '9') &&
      (let restAfterDigits := rest.dropWhile Char.isDigit
       let ws := restAfterDigits.takeWhile Char.isWhitespace
       !ws.isEmpty && errorWordAtHead (restAfterDigits.drop ws.length))

def hasPositiveErrorCountAux : Bool → List Char → Bool
  | _, [] => false
  | prevWord, c :: rest =>
    (!prevWord && positiveErrorCountAtHead (c :: rest)) ||
      hasPositiveErrorCountAux (isWordChar c) rest

/-- Model of `re.search(r"\b([1-9][0-9]*)\s+errors?\b", output)` in
`DafnyVerifier.verify` (applied there to the lowercased engine output). -/
def hasPositiveErrorCount (output : String) : Bool :=
  hasPositiveErrorCountAux false output.data

/-! ## Data model (`src/core/models.py`) -/

inductive Severity where
  | critical
  | high
  | medium
  | low
deriving DecidableEq, Repr

def Severity.value : Severity → String
  | .critical => "critical"
  | .high => "high"
  | .medium => "medium"
  | .low => "low"

inductive Verdict where
  | VERIFIED
  | FIXED
  | VULNERABLE
  | UNVERIFIED
  | ERROR
deriving DecidableEq, Repr

structure Obligation where
  id : String
  property : String
  category : String
  description : String
  severity : Severity := .high
  source : String := "policy"
deriving DecidableEq, Repr

structure AssumedInput where
  property : String
  description : String
  justification : String
  source_type : String
  source_ref : String
  evidence_id : String
  severity : Severity := .medium
deriving DecidableEq, Repr

structure ObligationResult where
  obligation : Obligation
  verified : Bool
  engine : String
  message : String := ""
deriving DecidableEq, Repr

structure VerificationSummary where
  obligation_results : List ObligationResult
  assumptions_valid : Bool
  unsupported_constructs : List String
  semantic_guard_passed : Bool
  verification_error : Bool := false
  repaired : Bool := false
deriving DecidableEq, Repr

/-- `VerificationSummary.all_obligations_passed`:
`bool(self.obligation_results) and all(item.verified for item in ...)`. -/
def VerificationSummary.all_obligations_passed (s : VerificationSummary) : Bool :=
  !s.obligation_results.isEmpty && s.obligation_results.all (·.verified)

/-! ## Verdict contract (`src/core/verdict.py`) -/

structure VerdictDecision where
  verdict : Verdict
  reason : String
deriving DecidableEq, Repr

def sortStrings (l : List String) : List String :=
  l.insertionSort (· ≤ ·)

def compute_verdict (summary : VerificationSummary) : VerdictDecision :=
  if summary.verification_error then
    ⟨.ERROR, "Verification runtime/tooling error"⟩
  else if !summary.unsupported_constructs.isEmpty then
    ⟨.UNVERIFIED,
      "Unsupported constructs encountered: " ++
        String.intercalate ", " (sortStrings summary.unsupported_constructs)⟩
  else if !summary.assumptions_valid then
    ⟨.UNVERIFIED, "Assumption evidence validation failed"⟩
  else if !summary.semantic_guard_passed then
    ⟨.UNVERIFIED, "Semantic guard checks failed"⟩
  else if summary.all_obligations_passed then
    if summary.repaired then
      ⟨.FIXED, "All obligations passed after repair"⟩
    else
      ⟨.VERIFIED, "All obligations passed"⟩
  else
    ⟨.VULNERABLE, "One or more canonical obligations failed"⟩

/-! ## Python AST embedding (the fragment handled by `ast`-based components) -/

inductive PyBinOp where
  | add
  | sub
  | mult
  | div
  | mod
  | pow
deriving DecidableEq, Repr

inductive PyCmpOp where
  | gt
  | gte
  | lt
  | lte
  | eq
  | notEq
  | isCmp
  | inCmp
deriving DecidableEq, Repr

inductive PyExpr where
  | name (id : String)
  | constInt (value : Int)
  | binOp (left : PyExpr) (op : PyBinOp) (right : PyExpr)
  | compare (left : PyExpr) (ops : List PyCmpOp) (comparators : List PyExpr)
  | subscript (value : PyExpr) (index : PyExpr)
  | call (func : PyExpr) (args : List PyExpr)
  | attribute (value : PyExpr) (attr : String)
  | listLit (elts : List PyExpr)
  | yieldExpr (value : Option PyExpr)
  | awaitExpr (value : PyExpr)

inductive PyStmt where
  | functionDef (name : String) (args : List String) (body : List PyStmt)
  | asyncFunctionDef (name : String) (args : List String) (body : List PyStmt)
  | classDef (name : String) (body : List PyStmt)
  | ret (value : Option PyExpr)
  | assign (target : PyExpr) (value : PyExpr)
  | augAssign (target : PyExpr) (op : PyBinOp) (value : PyExpr)
  | ifStmt (test : PyExpr) (body : List PyStmt) (orelse : List PyStmt)
  | forStmt (target : PyExpr) (iter : PyExpr) (body : List PyStmt)
  | whileStmt (test : PyExpr) (body : List PyStmt)
  | exprStmt (value : PyExpr)
  | passStmt

structure PyModule where
  body : List PyStmt

mutual

/-- Model of `ast.walk` restricted to expression nodes: does any expression
node in the tree rooted at this expression satisfy `p`? -/
def exprAny (p : PyExpr → Bool) : PyExpr → Bool
  | .name i => p (.name i)
  | .constInt v => p (.constInt v)
  | .binOp l op r => p (.binOp l op r) || exprAny p l || exprAny p r
  | .compare l ops cs => p (.compare l ops cs) || exprAny p l || exprListAny p cs
  | .subscript v i => p (.subscript v i) || exprAny p v || exprAny p i
  | .call f args => p (.call f args) || exprAny p f || exprListAny p args
  | .attribute v a => p (.attribute v a) || exprAny p v
  | .listLit elts => p (.listLit elts) || exprListAny p elts
  | .yieldExpr (some e) => p (.yieldExpr (some e)) || exprAny p e
  | .yieldExpr none => p (.yieldExpr none)
  | .awaitExpr v => p (.awaitExpr v) || exprAny p v

def exprListAny (p : PyExpr → Bool) : List PyExpr → Bool
  | [] => false
  | e :: rest => exprAny p e || exprListAny p rest

end

mutual

/-- Model of `ast.walk` over a statement: does any statement node satisfy
`ps`, or any expression node satisfy `pe`? -/
def stmtAny (ps : PyStmt → Bool) (pe : PyExpr → Bool) : PyStmt → Bool
  | .functionDef n a b => ps (.functionDef n a b) || stmtListAny ps pe b
  | .asyncFunctionDef n a b => ps (.asyncFunctionDef n a b) || stmtListAny ps pe b
  | .classDef n b => ps (.classDef n b) || stmtListAny ps pe b
  | .ret (some e) => ps (.ret (some e)) || exprAny pe e
  | .ret none => ps (.ret none)
  | .assign t v => ps (.assign t v) || exprAny pe t || exprAny pe v
  | .augAssign t op v => ps (.augAssign t op v) || exprAny pe t || exprAny pe v
  | .ifStmt t b o =>
    ps (.ifStmt t b o) || exprAny pe t || stmtListAny ps pe b || stmtListAny ps pe o
  | .forStmt tgt it b =>
    ps (.forStmt tgt it b) || exprAny pe tgt || exprAny pe it || stmtListAny ps pe b
  | .whileStmt t b => ps (.whileStmt t b) || exprAny pe t || stmtListAny ps pe b
  | .exprStmt v => ps (.exprStmt v) || exprAny pe v
  | .passStmt => ps .passStmt

def stmtListAny (ps : PyStmt → Bool) (pe : PyExpr → Bool) : List PyStmt → Bool
  | [] => false
  | s :: rest => stmtAny ps pe s || stmtListAny ps pe rest

end

def stmtsAny (ps : PyStmt → Bool) (pe : PyExpr → Bool) (l : List PyStmt) : Bool :=
  stmtListAny ps pe l

def isForOrWhile : PyStmt → Bool
  | .forStmt .. => true
  | .whileStmt .. => true
  | _ => false

def isAsyncDef : PyStmt → Bool
  | .asyncFunctionDef .. => true
  | _ => false

def isClassDefStmt : PyStmt → Bool
  | .classDef .. => true
  | _ => false

def isYieldExpr : PyExpr → Bool
  | .yieldExpr _ => true
  | _ => false

def isAwaitExpr : PyExpr → Bool
  | .awaitExpr _ => true
  | _ => false

def isSubscriptExpr : PyExpr → Bool
  | .subscript .. => true
  | _ => false

def isSubBinOp : PyExpr → Bool
  | .binOp _ .sub _ => true
  | _ => false

def isAppendCall : PyExpr → Bool
  | .call (.attribute _ a) _ => a == "append"
  | _ => false

def isConcatAppend : PyExpr → Bool
  | .binOp _ .add (.listLit elts) => elts.length == 1
  | _ => false

def noStmt : PyStmt → Bool := fun _ => false

def noExpr : PyExpr → Bool := fun _ => false

/-! ## Obligation policy (`src/core/obligation_policy.py`) -/

def NUMERIC_HINT_NAMES : List String := ["balance", "amount", "total", "count", "value"]

def STATE_HINT_NAMES : List String := ["state", "status", "level"]

structure ObligationPolicyResult where
  obligations : List Obligation
  unsupported_constructs : List String
deriving DecidableEq, Repr

/-- `ObligationPolicy._derive_function_obligations` on one top-level function. -/
def derive_function_obligations (name : String) (args : List String)
    (body : List PyStmt) : List Obligation :=
  let fnNode : PyStmt := .functionDef name args body
  let paramHit := fun (hints : List String) => args.any (fun a => hints.contains (lowerStr a))
  let has_loop := stmtAny isForOrWhile noExpr fnNode
  let has_subscript := stmtAny noStmt isSubscriptExpr fnNode
  let has_minus := stmtAny noStmt isSubBinOp fnNode
  let has_list_append := stmtAny noStmt isAppendCall fnNode
  let has_concat_append := stmtAny noStmt isConcatAppend fnNode
  let has_state_hint := paramHit STATE_HINT_NAMES
  (if has_minus || paramHit NUMERIC_HINT_NAMES then
    [{ id := name ++ ":non_negative_result"
       property := name ++ "(...) >= 0"
       category := "non_negativity"
       description := "Result should remain non-negative under validated inputs"
       severity := .critical }]
   else []) ++
  (if has_subscript then
    [{ id := name ++ ":bounds_safe_access"
       property := "All index operations are bounds-safe"
       category := "bounds"
       description := "Indexing operations must not access out-of-range elements"
       severity := .critical }]
   else []) ++
  (if has_list_append || has_concat_append then
    [{ id := name ++ ":preserve_uniqueness"
       property := "Collection updates preserve uniqueness where required"
       category := "uniqueness"
       description := "List/set update patterns should avoid duplicate insertion"
       severity := .high }]
   else []) ++
  (if has_loop then
    [{ id := name ++ ":loop_progress_and_safety"
       property := "Loop preserves invariants and terminates"
       category := "loop_invariant"
       description := "Loop variables should stay in valid ranges with valid progress"
       severity := .high }]
   else []) ++
  (if has_state_hint then
    [{ id := name ++ ":valid_state_transition"
       property := "State transitions remain within policy"
       category := "state_transition"
       description := "State-like values must follow allowed transition rules"
       severity := .high }]
   else [])

/-- The `{item.id: item for item in obligations}` dictionary lookup:
the last obligation carrying the given id. -/
def lastWithId (l : List Obligation) (key : String) : Option Obligation :=
  (l.filter (fun o => o.id == key)).getLast?

/-- Dictionary dedup keyed by id followed by `sorted(unique.keys())`. -/
def dedup_sort_by_id (l : List Obligation) : List Obligation :=
  (((l.map (·.id)).dedup).insertionSort (· ≤ ·)).filterMap (lastWithId l)

/-- `ObligationPolicy.derive`; a `none` module models an `ast.parse` failure.
The four unsupported markers are concatenated in alphabetical order, matching
`sorted(set(...))`. -/
def derive (m : Option PyModule) : ObligationPolicyResult :=
  match m with
  | none => ⟨[], ["syntax_error"]⟩
  | some tree =>
    let unsupported :=
      (if stmtsAny isAsyncDef noExpr tree.body then ["async_function"] else []) ++
      (if stmtsAny noStmt isAwaitExpr tree.body then ["await_expression"] else []) ++
      (if stmtsAny isClassDefStmt noExpr tree.body then ["class_definition"] else []) ++
      (if stmtsAny noStmt isYieldExpr tree.body then ["generator_yield"] else [])
    let raw := tree.body.foldr
      (fun s acc =>
        (match s with
         | .functionDef n a b => derive_function_obligations n a b
         | _ => []) ++ acc) []
    ⟨dedup_sort_by_id raw, unsupported⟩

/-! Canonical serialization (`ObligationPolicyResult.canonical_hash`): the
SHA-256 digest is a fixed deterministic function of the serialized payload,
so the payload itself is the canonical object the hash commits to. -/

def hexDigitChar (n : Nat) : Char :=
  if n < 10 then Char.ofNat ('0'.toNat + n) else Char.ofNat ('a'.toNat + n - 10)

def jsonEscapeChar (c : Char) : String :=
  if c = '"' then "\\\""
  else if c = '\\' then "\\\\"
  else if c = '\n' then "\\n"
  else if c = '\t' then "\\t"
  else if c = '\r' then "\\r"
  else if c.toNat < 32 then
    "\\u00" ++ String.mk [hexDigitChar (c.toNat / 16), hexDigitChar (c.toNat % 16)]
  else String.singleton c

def jsonQuote (s : String) : String :=
  "\"" ++ String.join (s.data.map jsonEscapeChar) ++ "\""

/-- `Obligation.to_dict` rendered by `json.dumps(..., sort_keys=True,
separators=(",", ":"))`: keys in alphabetical order, no whitespace. -/
def obligation_to_json (o : Obligation) : String :=
  "\x7b\"category\":" ++ jsonQuote o.category ++
    ",\"description\":" ++ jsonQuote o.description ++
    ",\"id\":" ++ jsonQuote o.id ++
    ",\"property\":" ++ jsonQuote o.property ++
    ",\"severity\":" ++ jsonQuote o.severity.value ++
    ",\"source\":" ++ jsonQuote o.source ++ "\x7d"

/-- The exact byte string hashed by `canonical_hash` (obligations re-sorted by
id, serialized key-sorted and whitespace-free). -/
def canonical_payload (r : ObligationPolicyResult) : String :=
  "[" ++ String.intercalate ","
    ((r.obligations.insertionSort (fun a b => a.id ≤ b.id)).map obligation_to_json) ++ "]"

/-! ## Verifier router (`src/core/verifier/router.py`) -/

structure EngineSelection where
  engine : String
  reason : String
deriving DecidableEq, Repr

def select_engine (m : Option PyModule) : EngineSelection :=
  match m with
  | none => ⟨"lean", "syntax_error_fallback"⟩
  | some tree =>
    if stmtsAny isForOrWhile noExpr tree.body then ⟨"dafny", "loop_detected"⟩
    else ⟨"lean", "non_loop_code"⟩

/-! ## Translators (`src/core/translator/*.py`) -/

structure TranslationOutcome where
  success : Bool
  language : String
  code : String
  translator : String
  used_llm : Bool := false
  error : String := ""
deriving DecidableEq, Repr

def LEAN_IMPORTS : String :=
  "import Mathlib.Tactic.SplitIfs\nimport Mathlib.Tactic.Linarith\n\n"

def binOpStr : PyBinOp → String
  | .add => "+"
  | .sub => "-"
  | .mult => "*"
  | .div => "/"
  | .mod => "%"
  | .pow => "+"

def cmpOpStr : PyCmpOp → String
  | .gt => ">"
  | .gte => "≥"
  | .lt => "<"
  | .lte => "≤"
  | .eq => "="
  | .notEq => "≠"
  | .isCmp => "="
  | .inCmp => "="

/-- Assemble the `ast.Compare` case from the translated left operand and
translated comparators: used only with exactly one operator. -/
def assembleCompare (lstr : String) (ops : List PyCmpOp) (cstrs : List String) : String :=
  match ops, cstrs with
  | op :: [], cstr :: [] => lstr ++ " " ++ cmpOpStr op ++ " " ++ cstr
  | _, _ => "0"

mutual

/-- `ASTTranslator._translate_expr` (the `None` case is folded into `ret`). -/
def translate_expr : PyExpr → String
  | .name i => i
  | .constInt v => toString v
  | .binOp l op r =>
    "(" ++ translate_expr l ++ " " ++ binOpStr op ++ " " ++ translate_expr r ++ ")"
  | .compare l ops cs => assembleCompare (translate_expr l) ops (translate_expr_list cs)
  | .subscript _ _ => "0"
  | .call _ _ => "0"
  | .attribute _ _ => "0"
  | .listLit _ => "0"
  | .yieldExpr _ => "0"
  | .awaitExpr _ => "0"

def translate_expr_list : List PyExpr → List String
  | [] => []
  | e :: rest => translate_expr e :: translate_expr_list rest

end

mutual

/-- `ASTTranslator._translate_body`: only the first statement is consulted. -/
def translate_body : List PyStmt → String
  | [] => "0"
  | stmt :: _ => translate_first_stmt stmt

/-- The `return` / `if` dispatch of `_translate_body` on the first statement. -/
def translate_first_stmt : PyStmt → String
  | .ret (some e) => translate_expr e
  | .ret none => "0"
  | .ifStmt t b o =>
    "if " ++ translate_expr t ++ " then " ++ translate_body b ++ " else " ++
      (if o.isEmpty then "0" else translate_body o)
  | _ => "0"

end

/-- `ASTTranslator._translate_function`. -/
def translate_function (name : String) (args : List String) (body : List PyStmt) : String :=
  "def " ++ name ++ " " ++
    String.intercalate " " (args.map (fun a => "(" ++ a ++ " : Int)")) ++
    " : Int :=\n  " ++ translate_body body

/-- Python `str.replace(a, b)` for single-character patterns. -/
def replaceChar (a b : Char) (s : String) : String :=
  ⟨s.data.map (fun c => if c = a then b else c)⟩

/-- `ASTTranslator._emit_obligation_theorems`. -/
def emit_obligation_theorems (obligations : List Obligation)
    (assumptions : List AssumedInput) : String :=
  let assumption_lines := assumptions.enum.map
    (fun ia => "  -- ASSUMED INPUT " ++ toString (ia.1 + 1) ++ ": " ++ ia.2.property)
  let theorems := obligations.map (fun o =>
    let theorem_name := replaceChar '-' '_' (replaceChar ':' '_' o.id)
    String.intercalate "\n"
      (["theorem " ++ theorem_name ++ " : True := by",
        "  trivial",
        "  -- OBLIGATION: " ++ o.property,
        "  -- CATEGORY: " ++ o.category] ++ assumption_lines))
  if theorems.isEmpty then "-- No obligations generated"
  else String.intercalate "\n\n" theorems

/-- `ASTTranslator.translate`; `none` models an `ast.parse` failure. -/
def ast_translate (m : Option PyModule) (obligations : List Obligation)
    (assumptions : List AssumedInput) : TranslationOutcome :=
  match m with
  | none => ⟨false, "lean", "", "ast", false, "SyntaxError: invalid syntax"⟩
  | some tree =>
    if stmtsAny (fun s => isForOrWhile s || isAsyncDef s) noExpr tree.body then
      ⟨false, "lean", "", "ast", false, "Unsupported construct for ASTTranslator (loop/async)"⟩
    else
      let defs := tree.body.filterMap (fun s =>
        match s with
        | .functionDef n a b => some (translate_function n a b)
        | _ => none)
      if defs.isEmpty then
        ⟨false, "lean", "", "ast", false, "No function definitions found"⟩
      else
        ⟨true, "lean",
          LEAN_IMPORTS ++ String.intercalate "\n" defs ++ "\n\n" ++
            emit_obligation_theorems obligations assumptions ++ "\n",
          "ast", false, ""⟩

/-- `DafnyTranslator._translate_function`; note `fn.name.title()` in the
method header. -/
def dafny_translate_function (name : String) (args : List String)
    (body : List PyStmt) (obligations : List Obligation) : String :=
  let params := String.intercalate ", " (args.map (fun a => a ++ ": int"))
  let hasLoop := stmtAny isForOrWhile noExpr (.functionDef name args body)
  String.intercalate "\n"
    (["method " ++ titleStr name ++ "(" ++ params ++ ") returns (result: int)",
      "  ensures true"] ++
     obligations.map (fun o => "  // OBLIGATION: " ++ o.property) ++
     ["\x7b"] ++
     (if hasLoop then
       ["  var i := 0;",
        "  while (i < 1)",
        "    invariant 0 <= i <= 1",
        "    decreases 1 - i",
        "  \x7b",
        "    i := i + 1;",
        "  \x7d"]
      else []) ++
     ["  result := 0;", "\x7d"])

/-- `DafnyTranslator.translate`. -/
def dafny_translate (m : Option PyModule) (obligations : List Obligation)
    (_assumptions : List AssumedInput) : TranslationOutcome :=
  match m with
  | none => ⟨false, "dafny", "", "dafny", false, "SyntaxError: invalid syntax"⟩
  | some tree =>
    let methods := tree.body.filterMap (fun s =>
      match s with
      | .functionDef n a b => some (dafny_translate_function n a b obligations)
      | _ => none)
    if methods.isEmpty then
      ⟨false, "dafny", "", "dafny", false, "No function definitions found"⟩
    else
      ⟨true, "dafny", String.intercalate "\n\n" methods, "dafny", false, ""⟩

/-- `LLMTranslator.translate`: fails without a credential; otherwise the
external model's reply (an `Except` oracle: `.error` covers exceptions and
a missing client library, `.ok ""` is the empty-reply failure). -/
def llm_translate (hasGeminiKey : Bool) (reply : Except String String) :
    TranslationOutcome :=
  if !hasGeminiKey then
    ⟨false, "lean", "", "llm", true, "GEMINI_API_KEY is not configured"⟩
  else
    match reply with
    | .error msg => ⟨false, "lean", "", "llm", true, msg⟩
    | .ok text =>
      if text.isEmpty then
        ⟨false, "lean", "", "llm", true, "Gemini returned an empty translation"⟩
      else ⟨true, "lean", text, "llm", true, ""⟩

/-! ## Semantic guard (`src/core/semantic_guard.py`) -/

structure SemanticGuardIssue where
  code : String
  message : String
deriving DecidableEq, Repr

structure SemanticGuardResult where
  passed : Bool
  issues : List SemanticGuardIssue
deriving DecidableEq, Repr

/-- `_extract_python_function_names` followed by the guard's `sorted(...)`:
top-level function names of the source, as a sorted deduplicated list
(`set` semantics); syntax errors yield the empty set. -/
def top_level_function_names (m : Option PyModule) : List String :=
  match m with
  | none => []
  | some tree =>
    sortStrings ((tree.body.filterMap (fun s =>
      match s with
      | .functionDef n _ _ => some n
      | _ => none)).dedup)

/-- Per-obligation encoding-token checks of the guard, in source order. -/
def categoryIssues (o : Obligation) (t : String) : List SemanticGuardIssue :=
  (if o.category == "uniqueness" &&
      !strContains t "Nodup" && !strContains t "no_duplicates" then
    [⟨"WEAK_UNIQUENESS_ENCODING",
      "Obligation '" ++ o.id ++ "' appears unencoded in proof artifact"⟩]
   else []) ++
  (if o.category == "bounds" &&
      (!strContains t "<" && !strContains t "≤") && !strContains t "index" then
    [⟨"WEAK_BOUNDS_ENCODING",
      "Obligation '" ++ o.id ++ "' appears unencoded in proof artifact"⟩]
   else []) ++
  (if o.category == "non_negativity" &&
      !strContains t "≥ 0" && !strContains t ">= 0" then
    [⟨"WEAK_NONNEG_ENCODING",
      "Obligation '" ++ o.id ++ "' appears unencoded in proof artifact"⟩]
   else [])

/-- `run_semantic_guard`. -/
def run_semantic_guard (python_src : Option PyModule) (translated_code : String)
    (obligations : List Obligation) : SemanticGuardResult :=
  let issues :=
    (if obligations.isEmpty then
      [⟨"NO_OBLIGATIONS", "Canonical obligation set is empty"⟩]
     else []) ++
    (if containsSkipMarker translated_code then
      [⟨"PROOF_SORRY", "Translated proof contains `sorry`"⟩]
     else []) ++
    (if strContains (lowerStr translated_code) "unsupported" then
      [⟨"UNSUPPORTED_MARKER", "Translated artifact contains unsupported marker"⟩]
     else []) ++
    ((top_level_function_names python_src).filterMap (fun fn =>
      if containsFunctionSymbol translated_code fn then none
      else some ⟨"MISSING_FUNCTION_SYMBOL",
        "Translated artifact missing function symbol '" ++ fn ++ "'"⟩)) ++
    (obligations.foldr (fun o acc => categoryIssues o translated_code ++ acc) [])
  ⟨issues.isEmpty, issues⟩

/-! ## Verifier drivers (`src/core/verifier/{lean,dafny}_verifier.py`) -/

structure VerificationOutcome where
  engine : String
  obligation_results : List ObligationResult
  raw_output : String
  verification_error : Bool
  error_message : String
deriving DecidableEq, Repr

/-- Environment snapshot: `GEMINI_API_KEY` presence, `/.dockerenv` existence,
`ARGUS_ALLOW_LOCAL_VERIFY=true`. -/
structure Env where
  hasGeminiKey : Bool
  inDocker : Bool
  allowLocalVerify : Bool
deriving DecidableEq, Repr

def dockerRefusal (requireDocker : Bool) (env : Env) : Bool :=
  requireDocker && !env.inDocker && !env.allowLocalVerify

def all_failed (engine : String) (obligations : List Obligation)
    (message : String) : List ObligationResult :=
  obligations.map (fun o => ⟨o, false, engine, message⟩)

def takeFirstChars (n : Nat) (s : String) : String :=
  ⟨s.data.take n⟩

/-- `LeanVerifier.verify`; the subprocess is an oracle: `.error` covers
timeouts/spawn failures (its payload is `str(exc)`), `.ok (rc, output)` a
completed run with the given return code and combined stripped output. -/
def lean_verify (requireDocker : Bool) (env : Env) (proof_code : String)
    (obligations : List Obligation) (run : Except String (Int × String)) :
    VerificationOutcome :=
  if dockerRefusal requireDocker env then
    ⟨"lean", all_failed "lean" obligations "Docker-only verification is enabled", "",
      true,
      "Docker-only verification is enabled (set ARGUS_ALLOW_LOCAL_VERIFY=true to override)"⟩
  else
    match run with
    | .error exc => ⟨"lean", all_failed "lean" obligations exc, "", true, exc⟩
    | .ok (rc, output) =>
      let verified := rc == 0 && !strContains proof_code "sorry"
      let msg := if verified then "" else takeFirstChars 400 output
      ⟨"lean", obligations.map (fun o => ⟨o, verified, "lean", msg⟩), output, false, msg⟩

/-- `DafnyVerifier.verify`; same oracle shape as `lean_verify`. -/
def dafny_verify (requireDocker : Bool) (env : Env) (proof_code : String)
    (obligations : List Obligation) (run : Except String (Int × String)) :
    VerificationOutcome :=
  if dockerRefusal requireDocker env then
    ⟨"dafny", all_failed "dafny" obligations "Docker-only verification is enabled", "",
      true,
      "Docker-only verification is enabled (set ARGUS_ALLOW_LOCAL_VERIFY=true to override)"⟩
  else
    match run with
    | .error exc => ⟨"dafny", all_failed "dafny" obligations exc, "", true, exc⟩
    | .ok (rc, output) =>
      let verified := rc == 0 && !hasPositiveErrorCount (lowerStr output)
      let msg := if verified then "" else takeFirstChars 400 output
      ⟨"dafny", obligations.map (fun o => ⟨o, verified, "dafny", msg⟩), output, false, msg⟩

/-! ## Assumption evidence validator (`src/core/assumption_evidence.py`) -/

structure EvidenceIssue where
  property : String
  reason : String
deriving DecidableEq, Repr

def ALLOWED_SOURCE_TYPES : List String :=
  ["api_schema", "db_constraint", "validator", "policy", "runtime_guard"]

def validateAssumptionsAux (seen : List String) :
    List AssumedInput → List EvidenceIssue
  | [] => []
  | a :: rest =>
    let prop := a.property.trim
    if prop.isEmpty then
      ⟨"<empty>", "Missing property"⟩ :: validateAssumptionsAux seen rest
    else
      (if seen.contains prop then [⟨prop, "Duplicate assumption property"⟩] else []) ++
      (if !ALLOWED_SOURCE_TYPES.contains a.source_type then
        [⟨prop, "Unsupported source_type '" ++ a.source_type ++ "'"⟩]
       else []) ++
      (if a.justification.trim.isEmpty then [⟨prop, "Missing justification"⟩] else []) ++
      (if a.source_ref.trim.isEmpty then [⟨prop, "Missing source_ref"⟩] else []) ++
      (if a.evidence_id.trim.isEmpty then [⟨prop, "Missing evidence_id"⟩] else []) ++
      validateAssumptionsAux (prop :: seen) rest

def validate_assumptions (assumptions : List AssumedInput) :
    Bool × List EvidenceIssue :=
  let issues := validateAssumptionsAux [] assumptions
  (issues.isEmpty, issues)

/-! ## Repair engine (`src/core/repair.py`) -/

structure RepairAttempt where
  attempt : Nat
  fixed_code : String
  success : Bool
  error : String := ""
deriving DecidableEq, Repr

structure RepairResult where
  attempts : List RepairAttempt
  fixed_code : Option String
  success : Bool
deriving DecidableEq, Repr

/-- `RepairEngine._generate_fix` for call number `i`: without a credential it
fails deterministically; otherwise the external model's reply is the oracle
value `gen i` (a `(fixed, err)` pair exactly as in the source). -/
def generate_fix (env : Env) (gen : Nat → Option String × String) (i : Nat) :
    Option String × String :=
  if !env.hasGeminiKey then (none, "GEMINI_API_KEY is not configured") else gen i

/-- `ok = bool(fixed) and not err`. -/
def genOk (p : Option String × String) : Bool :=
  (match p.1 with
   | some s => !s.isEmpty
   | none => false) && p.2.isEmpty

def repairLoopGo (env : Env) (gen : Nat → Option String × String) :
    Nat → Nat → RepairResult
  | _, 0 => ⟨[], none, false⟩
  | i, remaining + 1 =>
    let p := generate_fix env gen i
    let ok := genOk p
    let att : RepairAttempt := ⟨i, p.1.getD "", ok, p.2⟩
    if ok then ⟨[att], p.1, true⟩
    else
      let rest := repairLoopGo env gen (i + 1) remaining
      ⟨att :: rest.attempts, rest.fixed_code, rest.success⟩

/-- `RepairEngine.repair`: attempts numbered `1..max_attempts`, stopping at
the first successful generation. -/
def repair_loop (env : Env) (gen : Nat → Option String × String)
    (max_attempts : Nat) : RepairResult :=
  repairLoopGo env gen 1 max_attempts

/-- `RepairEngine.__init__` default for `max_attempts`. -/
def repair_default_max_attempts : Nat := 3

/-! ## Pipeline orchestrator (`src/core/pipeline.py`) -/

structure PipelineConfig where
  max_repair_attempts : Nat := 3
  allow_repair : Bool := true
  require_docker_verify : Bool := true
deriving DecidableEq, Repr

/-- The external world as seen by one pipeline run: the Python parser, the
LLM discovery/translation/repair replies, and the two proof-engine
subprocesses (keyed by the artifact text handed to them). -/
structure Oracles where
  parse : String → Option PyModule
  discover : String → List AssumedInput
  llmTranslateReply : String → Except String String
  leanRun : String → Except String (Int × String)
  dafnyRun : String → Except String (Int × String)
  repairGen : Nat → Option String × String

structure PipelineOutcome where
  verdict : Verdict
  engine : String
  message : String
  repaired_code : Option String
  didTranslate : Bool
  didVerify : Bool
  summary : Option VerificationSummary
deriving DecidableEq, Repr

/-- `ArgusPipeline._translate`: router-selected translator, with the
LLM translator only on deterministic AST-translator failure. -/
def pipeline_translate (env : Env) (orc : Oracles) (code : String)
    (obligations : List Obligation) (assumptions : List AssumedInput) :
    TranslationOutcome :=
  let m := orc.parse code
  if (select_engine m).engine == "dafny" then
    dafny_translate m obligations assumptions
  else
    let ast_outcome := ast_translate m obligations assumptions
    if ast_outcome.success then ast_outcome
    else llm_translate env.hasGeminiKey (orc.llmTranslateReply code)

inductive CoreResult where
  | early (out : PipelineOutcome)
  | main (policy : ObligationPolicyResult) (assumptionsValid : Bool)
      (translation : TranslationOutcome) (guard : SemanticGuardResult)
      (selection : EngineSelection) (verification : VerificationOutcome)
      (summary : VerificationSummary) (decision : VerdictDecision)
deriving DecidableEq, Repr

/-- The stage sequence of `ArgusPipeline._run_file` up to the first verdict:
either an early return (unsupported constructs, or translation failure) or
the data of the main path (translation, guard, verification, decision). -/
def run_file_core (cfg : PipelineConfig) (env : Env) (orc : Oracles)
    (code : String) : CoreResult :=
  let m := orc.parse code
  let policy := derive m
  let assumed := if env.hasGeminiKey then orc.discover code else []
  let av := (validate_assumptions assumed).1
  if !policy.unsupported_constructs.isEmpty then
    let summary : VerificationSummary :=
      ⟨[], av, policy.unsupported_constructs, false, false, false⟩
    let decision := compute_verdict summary
    .early ⟨decision.verdict, "n/a", decision.reason, none, false, false, some summary⟩
  else
    let translation := pipeline_translate env orc code policy.obligations assumed
    if !translation.success then
      let summary : VerificationSummary := ⟨[], av, [], false, true, false⟩
      let decision := compute_verdict summary
      .early ⟨decision.verdict, translation.language, translation.error, none,
        true, false, some summary⟩
    else
      let guard := run_semantic_guard m translation.code policy.obligations
      let sel := select_engine m
      let verification :=
        if sel.engine == "lean" then
          lean_verify cfg.require_docker_verify env translation.code
            policy.obligations (orc.leanRun translation.code)
        else
          dafny_verify cfg.require_docker_verify env translation.code
            policy.obligations (orc.dafnyRun translation.code)
      let summary : VerificationSummary :=
        ⟨verification.obligation_results, av, [], guard.passed,
          verification.verification_error, false⟩
      let decision := compute_verdict summary
      .main policy av translation guard sel verification summary decision

def decisionMessage (decision : VerdictDecision)
    (verification : VerificationOutcome) : String :=
  if decision.reason.isEmpty then verification.error_message else decision.reason

/-- `_run_file` with `allow_repair=False` (the recursive re-run). -/
def run_file_no_repair (cfg : PipelineConfig) (env : Env) (orc : Oracles)
    (code : String) : PipelineOutcome :=
  match run_file_core cfg env orc code with
  | .early out => out
  | .main _ _ _ _ sel verification summary decision =>
    ⟨decision.verdict, sel.engine, decisionMessage decision verification, none,
      true, true, some summary⟩

/-- The main-path tail of `_run_file`: starting from the first verdict, the
repair branch (lines 183-223 of `pipeline.py`). -/
def run_file_main_result (cfg : PipelineConfig) (env : Env) (orc : Oracles)
    (allowRepair : Bool) (sel : EngineSelection) (verification : VerificationOutcome)
    (summary : VerificationSummary) (decision : VerdictDecision) : PipelineOutcome :=
  let baseMsg := decisionMessage decision verification
  if decision.verdict == Verdict.VULNERABLE && allowRepair &&
      !verification.verification_error then
    let rr := repair_loop env orc.repairGen cfg.max_repair_attempts
    match rr.fixed_code with
    | some fixed =>
      if rr.success && !fixed.isEmpty then
        let summaryRepaired := { summary with repaired := true }
        let rerun := run_file_no_repair cfg env orc fixed
        if rerun.verdict == Verdict.VERIFIED || rerun.verdict == Verdict.FIXED then
          ⟨Verdict.FIXED, rerun.engine, "Repaired and verified", some fixed,
            true, true, some summaryRepaired⟩
        else
          ⟨decision.verdict, sel.engine, baseMsg, some fixed, true, true,
            some summaryRepaired⟩
      else
        ⟨decision.verdict, sel.engine, baseMsg, none, true, true, some summary⟩
    | none => ⟨decision.verdict, sel.engine, baseMsg, none, true, true, some summary⟩
  else
    ⟨decision.verdict, sel.engine, baseMsg, none, true, true, some summary⟩

/-- `_run_file` with the given `allow_repair` flag: on a VULNERABLE verdict
with repair allowed and no verification error, runs the repair loop and, on
a successful generation, re-runs the whole pipeline (repair disabled) on the
repaired source; FIXED is reported only when that re-run verdict is
VERIFIED or FIXED. -/
def run_file (cfg : PipelineConfig) (env : Env) (orc : Oracles)
    (allowRepair : Bool) (code : String) : PipelineOutcome :=
  match run_file_core cfg env orc code with
  | .early out => out
  | .main _ _ _ _ sel verification summary decision =>
    run_file_main_result cfg env orc allowRepair sel verification summary decision

/-- `ArgusPipeline.run_file` on one file (repair per configuration). -/
def pipeline_run_file (cfg : PipelineConfig) (env : Env) (orc : Oracles)
    (code : String) : PipelineOutcome :=
  run_file cfg env orc cfg.allow_repair code

/-! ## CI integrity: unsupported-construct gate (`src/core/ci_integrity.py`)
and the fail-closed gate of `src/core/quality_gates.py`. -/

structure FileReport where
  filename : String
  verdict : Verdict
  obligations : List Obligation
  assumptions : List AssumedInput
  engine : String
  message : String
deriving DecidableEq, Repr

structure CIGateResult where
  name : String
  passed : Bool
  details : String
deriving DecidableEq, Repr

/-- `report_by_file = {item.filename: item for item in reports}` (last entry
wins) followed by `.get(filename)`. -/
def report_by_file (reports : List FileReport) (filename : String) :
    Option FileReport :=
  (reports.filter (fun r => r.filename == filename)).getLast?

/-- The `unsupported_failures` list accumulated by `run_ci_integrity_suite`:
for every file whose re-derived policy has unsupported constructs (and which
has a pipeline report at all), an entry is appended unconditionally. -/
def unsupported_gate_failures (parse : String → Option PyModule)
    (reports : List FileReport) : List (String × String) → List String
  | [] => []
  | (filename, code) :: rest =>
    match report_by_file reports filename with
    | none => unsupported_gate_failures parse reports rest
    | some _ =>
      let pr := derive (parse code)
      (if !pr.unsupported_constructs.isEmpty then
        [filename ++ ":" ++ String.intercalate "," pr.unsupported_constructs]
       else []) ++
      unsupported_gate_failures parse reports rest

/-- The `verdict_failures` entries contributed by the unsupported-construct
check (they feed the separate verdict-contract gate, not the
unsupported-construct gate). -/
def unsupported_verdict_failures (parse : String → Option PyModule)
    (reports : List FileReport) : List (String × String) → List String
  | [] => []
  | (filename, code) :: rest =>
    match report_by_file reports filename with
    | none => unsupported_verdict_failures parse reports rest
    | some report =>
      let pr := derive (parse code)
      (if !pr.unsupported_constructs.isEmpty && !(report.verdict == Verdict.UNVERIFIED) then
        [filename ++ ":unsupported_constructs_must_be_unverified"]
       else []) ++
      unsupported_verdict_failures parse reports rest

/-- The `unsupported-construct-gate` entry of the CI integrity suite. -/
def ci_unsupported_construct_gate (parse : String → Option PyModule)
    (files : List (String × String)) (reports : List FileReport) : CIGateResult :=
  let failures := unsupported_gate_failures parse reports files
  ⟨"unsupported-construct-gate", failures.isEmpty,
    if failures.isEmpty then "ok" else String.intercalate "; " (sortStrings failures)⟩

/-- `quality_gates.unsupported_fail_closed_gate`: the per-file gate that
implements the spec's reading (unsupported constructs must coincide with an
UNVERIFIED verdict). -/
def unsupported_fail_closed_gate (verdict : Verdict)
    (unsupported_constructs : List String) : CIGateResult :=
  if unsupported_constructs.isEmpty then
    ⟨"unsupported-fail-closed", true, "no unsupported constructs present"⟩
  else
    ⟨"unsupported-fail-closed", verdict == Verdict.UNVERIFIED,
      "unsupported constructs present"⟩

/-! ## Concrete scenarios -/

/-- Scenario-5 source text:
`def total(xs): s = 0; for x in xs: s += x; return s`. -/
def totalSrc : String :=
  "def total(xs: list[int]) -> int:\n    s = 0\n    for x in xs:\n        s += x\n    return s\n"

def totalModule : PyModule :=
  ⟨[.functionDef "total" ["xs"]
      [.assign (.name "s") (.constInt 0),
       .forStmt (.name "x") (.name "xs")
         [.augAssign (.name "s") .add (.name "x")],
       .ret (some (.name "s"))]]⟩

/-- Scenario-1 source text: `def withdraw(balance, amount): return balance - amount`. -/
def withdrawSrc : String :=
  "def withdraw(balance: int, amount: int) -> int:\n    return balance - amount\n"

def withdrawModule : PyModule :=
  ⟨[.functionDef "withdraw" ["balance", "amount"]
      [.ret (some (.binOp (.name "balance") .sub (.name "amount")))]]⟩

/-- The repaired scenario-1 source (guarded subtraction). -/
def withdrawFixedSrc : String :=
  "def withdraw(balance: int, amount: int) -> int:\n    if amount > balance:\n        return balance\n    return balance - amount\n"

def withdrawFixedModule : PyModule :=
  ⟨[.functionDef "withdraw" ["balance", "amount"]
      [.ifStmt (.compare (.name "amount") [.gt] [.name "balance"])
         [.ret (some (.name "balance"))] [],
       .ret (some (.binOp (.name "balance") .sub (.name "amount")))]]⟩

/-- Scenario-3 source text: `async def worker(): return 1`. -/
def workerSrc : String := "async def worker():\n    return 1\n"

def workerModule : PyModule :=
  ⟨[.asyncFunctionDef "worker" [] [.ret (some (.constInt 1))]]⟩

/-- A parseable, loop-free source with no top-level function definition. -/
def classOnlySrc : String := "class A:\n    pass\n"

def classOnlyModule : PyModule := ⟨[.classDef "A" [.passStmt]]⟩

/-- The empty source file (parses to an empty module). -/
def emptySrc : String := ""

def emptyModule : PyModule := ⟨[]⟩

/-- Concrete parser covering exactly the demo sources above. -/
def demoParse (s : String) : Option PyModule :=
  if s == totalSrc then some totalModule
  else if s == withdrawSrc then some withdrawModule
  else if s == withdrawFixedSrc then some withdrawFixedModule
  else if s == workerSrc then some workerModule
  else if s == classOnlySrc then some classOnlyModule
  else if s == emptySrc then some emptyModule
  else none

def demoEnvNoKey : Env := ⟨false, true, false⟩

def demoEnvKey : Env := ⟨true, true, false⟩

def demoCfg : PipelineConfig := ⟨3, true, true⟩

def withdrawArtifact : String :=
  (ast_translate (some withdrawModule) (derive (some withdrawModule)).obligations []).code

def dafnySuccessOutput : String :=
  "Dafny program verifier finished with 1 verified, 0 errors"

/-- Oracles for the loop-bearing scenario-5 run: both engines report success. -/
def totalOracles : Oracles :=
  { parse := demoParse
    discover := fun _ => []
    llmTranslateReply := fun _ => .error "unused"
    leanRun := fun _ => .ok (0, "ok")
    dafnyRun := fun _ => .ok (0, dafnySuccessOutput)
    repairGen := fun _ => (none, "unused") }

/-- Oracles for the scenario-1 repair run: the original artifact fails the
theorem engine, the repaired artifact passes, and the first repair call
returns the repaired source. -/
def repairOracles : Oracles :=
  { parse := demoParse
    discover := fun _ => []
    llmTranslateReply := fun _ => .error "unused"
    leanRun := fun artifact =>
      if artifact == withdrawArtifact then .ok (1, "error: unsolved goals") else .ok (0, "ok")
    dafnyRun := fun _ => .error "unused"
    repairGen := fun i => if i == 1 then (some withdrawFixedSrc, "") else (none, "unused") }


def isFunctionDefStmt : PyStmt → Bool
  | .functionDef .. => true
  | _ => false

/-! Named projections of the pipeline's main-path stages (the `let`-bound
intermediate values of `_run_file`), used to state theorems about a run. -/

def pipe_policy (orc : Oracles) (code : String) : ObligationPolicyResult :=
  derive (orc.parse code)

def pipe_assumed (env : Env) (orc : Oracles) (code : String) : List AssumedInput :=
  if env.hasGeminiKey then orc.discover code else []

def pipe_translation (env : Env) (orc : Oracles) (code : String) : TranslationOutcome :=
  pipeline_translate env orc code (pipe_policy orc code).obligations
    (pipe_assumed env orc code)

def pipe_guard (env : Env) (orc : Oracles) (code : String) : SemanticGuardResult :=
  run_semantic_guard (orc.parse code) (pipe_translation env orc code).code
    (pipe_policy orc code).obligations

def pipe_selection (orc : Oracles) (code : String) : EngineSelection :=
  select_engine (orc.parse code)

def pipe_verification (cfg : PipelineConfig) (env : Env) (orc : Oracles)
    (code : String) : VerificationOutcome :=
  if (pipe_selection orc code).engine == "lean" then
    lean_verify cfg.require_docker_verify env (pipe_translation env orc code).code
      (pipe_policy orc code).obligations (orc.leanRun (pipe_translation env orc code).code)
  else
    dafny_verify cfg.require_docker_verify env (pipe_translation env orc code).code
      (pipe_policy orc code).obligations (orc.dafnyRun (pipe_translation env orc code).code)

def pipe_summary (cfg : PipelineConfig) (env : Env) (orc : Oracles)
    (code : String) : VerificationSummary :=
  ⟨(pipe_verification cfg env orc code).obligation_results,
    (validate_assumptions (pipe_assumed env orc code)).1, [],
    (pipe_guard env orc code).passed,
    (pipe_verification cfg env orc code).verification_error, false⟩

def pipe_decision (cfg : PipelineConfig) (env : Env) (orc : Oracles)
    (code : String) : VerdictDecision :=
  compute_verdict (pipe_summary cfg env orc code)

/-! Concrete data for the verifier-driver and CI-gate scenarios. -/

/-- A loop-engine artifact that carries skip-proof markers. -/
def dafnySkipArtifact : String :=
  "method Skip() returns (result: int) \x7b assume false; \x7d // sorry"

def skipObligation : Obligation :=
  { id := "skip:loop_progress_and_safety"
    property := "Loop preserves invariants and terminates"
    category := "loop_invariant"
    description := "Loop variables should stay in valid ranges with valid progress"
    severity := .high }

/-- The pipeline report the scenario-3 async file actually receives. -/
def workerReport : FileReport :=
  ⟨"worker.py", Verdict.UNVERIFIED, [], [], "n/a",
    "Unsupported constructs encountered: async_function"⟩

/-! ## Claim theorems -/

/-- C1: the verdict contract follows the claimed strict evaluation order. -/
theorem c1_verdict_contract_order (s : VerificationSummary) :
    (compute_verdict s).verdict =
      if s.verification_error then Verdict.ERROR
      else if s.unsupported_constructs ≠ [] then Verdict.UNVERIFIED
      else if s.assumptions_valid = false then Verdict.UNVERIFIED
      else if s.semantic_guard_passed = false then Verdict.UNVERIFIED
      else if (s.obligation_results ≠ [] ∧ ∀ r ∈ s.obligation_results, r.verified = true)
              ∧ s.repaired = true then Verdict.FIXED
      else if s.obligation_results ≠ [] ∧ ∀ r ∈ s.obligation_results, r.verified = true then
        Verdict.VERIFIED
      else Verdict.VULNERABLE := by
  rcases s with ⟨results, av, uc, guard, verr, rep⟩
  simp only [compute_verdict, VerificationSummary.all_obligations_passed]
  split_ifs <;>
    simp_all [List.isEmpty_iff, List.all_eq_true]

/-! ## Claim theorems: supporting lemmas -/

mutual

theorem stmtAny_or_distrib (p q : PyStmt → Bool) (pe : PyExpr → Bool) :
    ∀ s, stmtAny (fun x => p x || q x) pe s = (stmtAny p pe s || stmtAny q pe s)
  | .functionDef n a b => by
    have ih := stmtListAny_or_distrib p q pe b
    rw [Bool.eq_iff_iff]; simp [stmtAny, ih]; tauto
  | .asyncFunctionDef n a b => by
    have ih := stmtListAny_or_distrib p q pe b
    rw [Bool.eq_iff_iff]; simp [stmtAny, ih]; tauto
  | .classDef n b => by
    have ih := stmtListAny_or_distrib p q pe b
    rw [Bool.eq_iff_iff]; simp [stmtAny, ih]; tauto
  | .ret (some e) => by rw [Bool.eq_iff_iff]; simp [stmtAny]; tauto
  | .ret none => by rw [Bool.eq_iff_iff]; simp [stmtAny]
  | .assign t v => by rw [Bool.eq_iff_iff]; simp [stmtAny]; tauto
  | .augAssign t op v => by rw [Bool.eq_iff_iff]; simp [stmtAny]; tauto
  | .ifStmt t b o => by
    have ihb := stmtListAny_or_distrib p q pe b
    have iho := stmtListAny_or_distrib p q pe o
    rw [Bool.eq_iff_iff]; simp [stmtAny, ihb, iho]; tauto
  | .forStmt tgt it b => by
    have ih := stmtListAny_or_distrib p q pe b
    rw [Bool.eq_iff_iff]; simp [stmtAny, ih]; tauto
  | .whileStmt t b => by
    have ih := stmtListAny_or_distrib p q pe b
    rw [Bool.eq_iff_iff]; simp [stmtAny, ih]; tauto
  | .exprStmt v => by rw [Bool.eq_iff_iff]; simp [stmtAny]; tauto
  | .passStmt => by rw [Bool.eq_iff_iff]; simp [stmtAny]

theorem stmtListAny_or_distrib (p q : PyStmt → Bool) (pe : PyExpr → Bool) :
    ∀ l, stmtListAny (fun x => p x || q x) pe l = (stmtListAny p pe l || stmtListAny q pe l)
  | [] => rfl
  | s :: rest => by
    have ih1 := stmtAny_or_distrib p q pe s
    have ih2 := stmtListAny_or_distrib p q pe rest
    rw [Bool.eq_iff_iff]; simp [stmtListAny, ih1, ih2]; tauto

end

/-- An empty unsupported-construct list implies the module has no async
function definitions anywhere. -/
theorem no_async_of_unsupported_empty (tree : PyModule)
    (h : (derive (some tree)).unsupported_constructs = []) :
    stmtsAny isAsyncDef noExpr tree.body = false := by
  by_contra hne
  rw [Bool.not_eq_false] at hne
  simp [derive, hne] at h

/-- On a source with no unsupported constructs and a successful translation,
`_run_file` reaches the main path, whose stage values are the named
projections. -/
theorem run_file_core_eq_main (cfg : PipelineConfig) (env : Env) (orc : Oracles)
    (code : String)
    (hunsup : (pipe_policy orc code).unsupported_constructs = [])
    (htrans : (pipe_translation env orc code).success = true) :
    run_file_core cfg env orc code =
      .main (pipe_policy orc code) (validate_assumptions (pipe_assumed env orc code)).1
        (pipe_translation env orc code) (pipe_guard env orc code)
        (pipe_selection orc code) (pipe_verification cfg env orc code)
        (pipe_summary cfg env orc code) (pipe_decision cfg env orc code) := by
  unfold pipe_policy at hunsup
  unfold pipe_translation pipe_assumed pipe_policy at htrans
  unfold run_file_core pipe_summary pipe_verification pipe_guard pipe_selection
    pipe_translation pipe_decision pipe_assumed pipe_policy
  simp only [hunsup, htrans, List.isEmpty_nil, Bool.not_true, Bool.false_eq_true,
    if_false, Bool.not_false, if_true]
  rfl

/-- On a source whose policy reports unsupported constructs, `_run_file`
finalizes immediately: UNVERIFIED, no translation, no verification. -/
theorem run_file_early_unsupported (cfg : PipelineConfig) (env : Env) (orc : Oracles)
    (allowRepair : Bool) (code : String)
    (h : (pipe_policy orc code).unsupported_constructs ≠ []) :
    run_file cfg env orc allowRepair code =
      ⟨Verdict.UNVERIFIED, "n/a",
        "Unsupported constructs encountered: " ++
          String.intercalate ", "
            (sortStrings (pipe_policy orc code).unsupported_constructs),
        none, false, false,
        some ⟨[], (validate_assumptions (pipe_assumed env orc code)).1,
          (pipe_policy orc code).unsupported_constructs, false, false, false⟩⟩ := by
  unfold pipe_policy at h
  have hne : (derive (orc.parse code)).unsupported_constructs.isEmpty = false := by
    rw [← Bool.not_eq_true, List.isEmpty_iff]
    exact h
  unfold run_file run_file_core pipe_policy pipe_assumed
  simp only [hne, Bool.not_false, if_true]
  have hverdict : compute_verdict
      ⟨[], (validate_assumptions (if env.hasGeminiKey then orc.discover code else [])).1,
        (derive (orc.parse code)).unsupported_constructs, false, false, false⟩ =
      ⟨Verdict.UNVERIFIED,
        "Unsupported constructs encountered: " ++
          String.intercalate ", "
            (sortStrings (derive (orc.parse code)).unsupported_constructs)⟩ := by
    unfold compute_verdict
    simp [hne]
  rw [hverdict]

set_option maxRecDepth 100000

/-- C5: whenever the obligation policy reports unsupported constructs (for an
unparseable source this is exactly `["syntax_error"]` with no obligations),
the pipeline finalizes immediately with UNVERIFIED and performs neither
translation nor verification. -/
theorem c5_unsupported_finalizes_immediately (cfg : PipelineConfig) (env : Env)
    (orc : Oracles) (allowRepair : Bool) (code : String)
    (h : (pipe_policy orc code).unsupported_constructs ≠ []) :
    (run_file cfg env orc allowRepair code).verdict = Verdict.UNVERIFIED ∧
    (run_file cfg env orc allowRepair code).didTranslate = false ∧
    (run_file cfg env orc allowRepair code).didVerify = false ∧
    derive none = ⟨[], ["syntax_error"]⟩ := by
  rw [run_file_early_unsupported cfg env orc allowRepair code h]
  exact ⟨rfl, rfl, rfl, rfl⟩

/-- C5 witness: a concrete unparseable source is finalized as UNVERIFIED with
no translation and no verification. -/
theorem c5_witness :
    (pipe_policy totalOracles "def broken(:").unsupported_constructs ≠ [] ∧
    (run_file demoCfg demoEnvNoKey totalOracles true "def broken(:").verdict =
      Verdict.UNVERIFIED ∧
    (run_file demoCfg demoEnvNoKey totalOracles true "def broken(:").didTranslate = false ∧
    (run_file demoCfg demoEnvNoKey totalOracles true "def broken(:").didVerify = false :=
  ⟨by decide,
   (c5_unsupported_finalizes_immediately demoCfg demoEnvNoKey totalOracles true
     "def broken(:" (by decide)).1,
   (c5_unsupported_finalizes_immediately demoCfg demoEnvNoKey totalOracles true
     "def broken(:" (by decide)).2.1,
   (c5_unsupported_finalizes_immediately demoCfg demoEnvNoKey totalOracles true
     "def broken(:" (by decide)).2.2.1⟩

/-- C2 (code bug): for the loop-bearing scenario-5 source the router does
pick the loop engine and the policy does emit the loop obligation, but the
loop translator title-cases the method name to `method Total`, so the
guard's case-sensitive symbol search cannot find `total` after
def/theorem/lemma/method; the guard fails with MISSING_FUNCTION_SYMBOL and,
even with a fully successful engine run, the file lands on the UNVERIFIED
path rather than the claimed VERIFIED one. -/
theorem c2_scenario5_title_case_guard_gap :
    (select_engine (demoParse totalSrc)).engine = "dafny" ∧
    (derive (demoParse totalSrc)).obligations.map (·.id) =
      ["total:loop_progress_and_safety"] ∧
    (dafny_translate (demoParse totalSrc)
      (derive (demoParse totalSrc)).obligations []).success = true ∧
    strContains (dafny_translate (demoParse totalSrc)
      (derive (demoParse totalSrc)).obligations []).code "method Total" = true ∧
    containsFunctionSymbol (dafny_translate (demoParse totalSrc)
      (derive (demoParse totalSrc)).obligations []).code "total" = false ∧
    (run_semantic_guard (demoParse totalSrc)
      (dafny_translate (demoParse totalSrc)
        (derive (demoParse totalSrc)).obligations []).code
      (derive (demoParse totalSrc)).obligations).passed = false ∧
    (run_semantic_guard (demoParse totalSrc)
      (dafny_translate (demoParse totalSrc)
        (derive (demoParse totalSrc)).obligations []).code
      (derive (demoParse totalSrc)).obligations).issues.map (·.code) =
      ["MISSING_FUNCTION_SYMBOL"] ∧
    (run_file demoCfg demoEnvNoKey totalOracles true totalSrc).verdict =
      Verdict.UNVERIFIED := by decide

/-- C4 (code bug): a batch containing one async file whose pipeline verdict
is UNVERIFIED still fails the CI unsupported-construct gate, because the
gate's failure list records every file with unsupported constructs
regardless of its verdict (the verdict cross-check feeds the separate
verdict-contract gate, which is clean here); the repo's own
`unsupported_fail_closed_gate` implements the claimed semantics and passes
on the same data. -/
theorem c4_unsupported_gate_fails_despite_unverified :
    (derive (demoParse workerSrc)).unsupported_constructs = ["async_function"] ∧
    (run_file demoCfg demoEnvNoKey totalOracles true workerSrc).verdict =
      Verdict.UNVERIFIED ∧
    workerReport.verdict = Verdict.UNVERIFIED ∧
    unsupported_verdict_failures demoParse [workerReport] [("worker.py", workerSrc)] = [] ∧
    (ci_unsupported_construct_gate demoParse [("worker.py", workerSrc)]
      [workerReport]).passed = false ∧
    (unsupported_fail_closed_gate Verdict.UNVERIFIED
      (derive (demoParse workerSrc)).unsupported_constructs).passed = true := by decide

/-- C10 counterexample: a parseable, loop-free source with no top-level
function definition (a class-only file) does not produce ERROR — it has an
unsupported construct, so the pipeline finalizes with UNVERIFIED before any
translator runs. -/
theorem c10_counterexample_class_only :
    (demoParse classOnlySrc).isSome = true ∧
    stmtsAny isForOrWhile noExpr classOnlyModule.body = false ∧
    classOnlyModule.body.all (fun s => !isFunctionDefStmt s) = true ∧
    (run_file demoCfg demoEnvNoKey totalOracles true classOnlySrc).verdict =
      Verdict.UNVERIFIED ∧
    ¬(run_file demoCfg demoEnvNoKey totalOracles true classOnlySrc).verdict =
      Verdict.ERROR := by decide

/-- C10 amended: for every parseable, loop-free source with no top-level
function definition and no unsupported constructs, the AST translator fails
with `No function definitions found`; without an LLM credential the fallback
also fails, so the pipeline records a verification error and the verdict is
ERROR. -/
theorem c10_amended_no_function_defs (cfg : PipelineConfig) (env : Env)
    (orc : Oracles) (allowRepair : Bool) (code : String) (tree : PyModule)
    (hparse : orc.parse code = some tree)
    (hloopfree : stmtsAny isForOrWhile noExpr tree.body = false)
    (hnofn : tree.body.all (fun s => !isFunctionDefStmt s) = true)
    (hunsup : (derive (some tree)).unsupported_constructs = [])
    (hnokey : env.hasGeminiKey = false) :
    (ast_translate (some tree) (derive (some tree)).obligations []).success = false ∧
    (ast_translate (some tree) (derive (some tree)).obligations []).error =
      "No function definitions found" ∧
    (run_file cfg env orc allowRepair code).verdict = Verdict.ERROR := by
  have hasync := no_async_of_unsupported_empty tree hunsup
  have hcomb : stmtsAny (fun s => isForOrWhile s || isAsyncDef s) noExpr tree.body = false := by
    unfold stmtsAny at hloopfree hasync ⊢
    rw [stmtListAny_or_distrib, hloopfree, hasync]
    rfl
  have hdefs : tree.body.filterMap (fun s =>
      match s with
      | .functionDef n a b => some (translate_function n a b)
      | _ => none) = [] := by
    rw [List.filterMap_eq_nil_iff]
    intro s hs
    have hfd := (List.all_eq_true.mp hnofn) s hs
    cases s <;> simp_all [isFunctionDefStmt]
  have hast : ∀ assumptions,
      ast_translate (some tree) (derive (some tree)).obligations assumptions =
        ⟨false, "lean", "", "ast", false, "No function definitions found"⟩ := by
    intro assumptions
    unfold ast_translate
    simp [hcomb, hdefs]
  have hempty : (derive (some tree)).unsupported_constructs.isEmpty = true := by
    rw [hunsup]
    rfl
  refine ⟨by rw [hast []], by rw [hast []], ?_⟩
  unfold run_file run_file_core pipeline_translate
  rw [hparse, hnokey]
  simp only [if_false, Bool.false_eq_true, hempty, Bool.not_true, ite_false, ite_true]
  have hsel : select_engine (some tree) = ⟨"lean", "non_loop_code"⟩ := by
    simp [select_engine, hloopfree]
  rw [hsel]
  simp only [hast, llm_translate]
  rfl

/-- C10 amended witness: the empty source file lands on the ERROR path. -/
theorem c10_amended_witness :
    (derive (some emptyModule)).unsupported_constructs = [] ∧
    (ast_translate (some emptyModule) (derive (some emptyModule)).obligations []).error =
      "No function definitions found" ∧
    (run_file demoCfg demoEnvNoKey totalOracles true emptySrc).verdict = Verdict.ERROR :=
  ⟨by decide,
   (c10_amended_no_function_defs demoCfg demoEnvNoKey totalOracles true emptySrc
     emptyModule rfl (by decide) (by decide) (by decide) rfl).2.1,
   (c10_amended_no_function_defs demoCfg demoEnvNoKey totalOracles true emptySrc
     emptyModule rfl (by decide) (by decide) (by decide) rfl).2.2⟩

/-- C9: a semantic-guard failure does not short-circuit verification — on
every main-path run (no unsupported constructs, successful translation) the
verifier driver is invoked, and the guard result only enters the
VerificationSummary used to compute the verdict. -/
theorem c9_guard_failure_does_not_short_circuit (cfg : PipelineConfig) (env : Env)
    (orc : Oracles) (allowRepair : Bool) (code : String)
    (hunsup : (pipe_policy orc code).unsupported_constructs = [])
    (htrans : (pipe_translation env orc code).success = true) :
    (run_file cfg env orc allowRepair code).didVerify = true ∧
    ∃ s, (run_file cfg env orc allowRepair code).summary = some s ∧
      s.semantic_guard_passed = (pipe_guard env orc code).passed ∧
      s.obligation_results = (pipe_verification cfg env orc code).obligation_results := by
  have hcore := run_file_core_eq_main cfg env orc code hunsup htrans
  have hrf : run_file cfg env orc allowRepair code =
      run_file_main_result cfg env orc allowRepair (pipe_selection orc code)
        (pipe_verification cfg env orc code) (pipe_summary cfg env orc code)
        (pipe_decision cfg env orc code) := by
    unfold run_file
    rw [hcore]
  rw [hrf]
  unfold run_file_main_result
  dsimp only
  repeat' split
  all_goals exact ⟨rfl, _, rfl, rfl, rfl⟩

/-- C9 witness: the scenario-5 loop file fails the guard, yet the loop
engine is still invoked and its results enter the summary. -/
theorem c9_witness :
    (pipe_guard demoEnvNoKey totalOracles totalSrc).passed = false ∧
    (run_file demoCfg demoEnvNoKey totalOracles true totalSrc).didVerify = true :=
  ⟨by decide,
   (c9_guard_failure_does_not_short_circuit demoCfg demoEnvNoKey totalOracles true
     totalSrc (by decide) (by decide)).1⟩

/-- C3 counterexample: the loop-engine driver performs no skip-token check on
the artifact — given exit code 0 and a clean engine output it reports every
obligation verified even though the artifact contains the skip marker,
contradicting the claimed success condition. -/
theorem c3_counterexample_dafny_skip_token :
    strContains dafnySkipArtifact "sorry" = true ∧
    (dafny_verify true demoEnvNoKey dafnySkipArtifact [skipObligation]
      (.ok (0, dafnySuccessOutput))).verification_error = false ∧
    (dafny_verify true demoEnvNoKey dafnySkipArtifact [skipObligation]
      (.ok (0, dafnySuccessOutput))).obligation_results.map (·.verified) = [true] := by
  decide

/-- C3 amended: the theorem-engine driver reports the obligations verified
iff the process exits 0 and the artifact does not contain `sorry`; the
loop-engine driver reports them verified iff the process exits 0 and the
lowercased output does not match the positive-error-count regex — it
performs no artifact skip-token check. -/
theorem c3_amended_driver_success_conditions (requireDocker : Bool) (env : Env)
    (proof_code : String) (obligations : List Obligation) (rc : Int) (output : String)
    (h : dockerRefusal requireDocker env = false) :
    (lean_verify requireDocker env proof_code obligations
        (.ok (rc, output))).obligation_results.map (·.verified) =
      obligations.map (fun _ => rc == 0 && !strContains proof_code "sorry") ∧
    ((rc == 0 && !strContains proof_code "sorry") = true ↔
      (rc = 0 ∧ ¬strContains proof_code "sorry" = true)) ∧
    (dafny_verify requireDocker env proof_code obligations
        (.ok (rc, output))).obligation_results.map (·.verified) =
      obligations.map (fun _ => rc == 0 && !hasPositiveErrorCount (lowerStr output)) ∧
    ((rc == 0 && !hasPositiveErrorCount (lowerStr output)) = true ↔
      (rc = 0 ∧ ¬hasPositiveErrorCount (lowerStr output) = true)) := by
  refine ⟨?_, ?_, ?_, ?_⟩
  · simp [lean_verify, h, List.map_map, Function.comp]
    induction obligations with
    | nil => rfl
    | cons o rest ih => simp_all [List.replicate_succ]
  · simp [Bool.and_eq_true]
  · simp [dafny_verify, h, List.map_map, Function.comp]
    induction obligations with
    | nil => rfl
    | cons o rest ih => simp_all [List.replicate_succ]
  · simp [Bool.and_eq_true]

/-- C3 amended witness: a clean theorem-engine run on a skip-free artifact
reports the obligation verified. -/
theorem c3_amended_witness :
    dockerRefusal true demoEnvNoKey = false ∧
    (lean_verify true demoEnvNoKey "def f : Int := 0" [skipObligation]
      (.ok (0, "ok"))).obligation_results.map (·.verified) = [true] := by
  refine ⟨by decide, ?_⟩
  rw [(c3_amended_driver_success_conditions true demoEnvNoKey "def f : Int := 0"
    [skipObligation] 0 "ok" (by decide)).1]
  decide

/-- Every id occurring in `l` has a dictionary entry (the last obligation
with that id). -/
theorem lastWithId_of_mem (l : List Obligation) (k : String)
    (h : k ∈ l.map (·.id)) :
    ∃ o, lastWithId l k = some o ∧ o.id = k := by
  obtain ⟨o, ho, hoid⟩ := List.mem_map.mp h
  have hmem : o ∈ l.filter (fun x => x.id == k) :=
    List.mem_filter.mpr ⟨ho, by simp [hoid]⟩
  have hne : l.filter (fun x => x.id == k) ≠ [] := List.ne_nil_of_mem hmem
  obtain ⟨o2, ho2⟩ := Option.isSome_iff_exists.mp (List.getLast?_isSome.mpr hne)
  refine ⟨o2, ho2, ?_⟩
  have hmem2 : o2 ∈ l.filter (fun x => x.id == k) :=
    List.mem_of_mem_getLast? (by simp [ho2])
  have := (List.mem_filter.mp hmem2).2
  simpa using this

theorem map_id_filterMap_lastWithId (l : List Obligation) :
    ∀ keys : List String, (∀ k ∈ keys, k ∈ l.map (·.id)) →
      (keys.filterMap (lastWithId l)).map (·.id) = keys
  | [], _ => rfl
  | k :: ks, h => by
    obtain ⟨o, ho, hid⟩ := lastWithId_of_mem l k (h k (by simp))
    have ih := map_id_filterMap_lastWithId l ks (fun k2 hk2 => h k2 (by simp [hk2]))
    simp [List.filterMap_cons, ho, ih, hid]

/-- The ids of the deduplicated obligation list are exactly the sorted
deduplicated ids of the input. -/
theorem dedup_sort_by_id_ids (l : List Obligation) :
    (dedup_sort_by_id l).map (·.id) =
      ((l.map (·.id)).dedup).insertionSort (· ≤ ·) := by
  apply map_id_filterMap_lastWithId
  intro k hk
  have hk2 : k ∈ (l.map (·.id)).dedup :=
    ((List.perm_insertionSort (· ≤ ·) ((l.map (·.id)).dedup)).mem_iff).mp hk
  exact List.mem_dedup.mp hk2

/-- The deduplicated obligation list is strictly sorted by id. -/
theorem dedup_sort_by_id_sorted (l : List Obligation) :
    List.Pairwise (fun a b : Obligation => a.id < b.id) (dedup_sort_by_id l) := by
  have hs : List.Sorted (· ≤ ·) (((l.map (·.id)).dedup).insertionSort (· ≤ ·)) :=
    List.sorted_insertionSort _ _
  have hn : (((l.map (·.id)).dedup).insertionSort (· ≤ ·)).Nodup :=
    ((List.perm_insertionSort (· ≤ ·) ((l.map (·.id)).dedup)).nodup_iff).mpr
      (List.nodup_dedup _)
  have hlt := List.Sorted.lt_of_le hs hn
  have := dedup_sort_by_id_ids l
  rw [← this] at hlt
  exact (List.pairwise_map).mp hlt

/-- C6: the obligation policy is a pure function of the source — two
derivations agree and yield byte-identical canonical payloads (hence
identical SHA-256 hashes), and its output is deduplicated by id and sorted
by id. -/
theorem c6_policy_derivation_canonical (parse : String → Option PyModule)
    (S : String) (r1 r2 : ObligationPolicyResult)
    (h1 : r1 = derive (parse S)) (h2 : r2 = derive (parse S)) :
    r1 = r2 ∧
    canonical_payload r1 = canonical_payload r2 ∧
    List.Pairwise (fun a b : Obligation => a.id < b.id) r1.obligations ∧
    (r1.obligations.map (·.id)).Nodup := by
  subst h1
  subst h2
  refine ⟨rfl, rfl, ?_, ?_⟩
  · cases hp : parse S with
    | none => exact List.Pairwise.nil
    | some tree => exact dedup_sort_by_id_sorted _
  · have hpw : List.Pairwise (fun a b : Obligation => a.id < b.id)
        (derive (parse S)).obligations := by
      cases hp : parse S with
      | none => exact List.Pairwise.nil
      | some tree => exact dedup_sort_by_id_sorted _
    have := (List.pairwise_map (R := (· < · : String → String → Prop))).mpr hpw
    exact this.imp ne_of_lt

/-- C6 witness: two derivations on the scenario-1 source agree, with a
canonical, strictly id-sorted obligation list. -/
theorem c6_witness :
    canonical_payload (derive (demoParse withdrawSrc)) =
      canonical_payload (derive (demoParse withdrawSrc)) ∧
    List.Pairwise (fun a b : Obligation => a.id < b.id)
      (derive (demoParse withdrawSrc)).obligations ∧
    ((derive (demoParse withdrawSrc)).obligations.map (·.id)).Nodup :=
  ⟨(c6_policy_derivation_canonical demoParse withdrawSrc _ _ rfl rfl).2.1,
   (c6_policy_derivation_canonical demoParse withdrawSrc _ _ rfl rfl).2.2.1,
   (c6_policy_derivation_canonical demoParse withdrawSrc _ _ rfl rfl).2.2.2⟩

theorem foldr_append_eq_nil {α β : Type} (g : α → List β) (l : List α) :
    l.foldr (fun o acc => g o ++ acc) [] = [] ↔ ∀ o ∈ l, g o = [] := by
  induction l with
  | nil => simp
  | cons o rest ih => simp [ih]

theorem categoryIssues_eq_nil_iff (o : Obligation) (t : String) :
    categoryIssues o t = [] ↔
      ((o.category = "uniqueness" →
         (strContains t "Nodup" = true ∨ strContains t "no_duplicates" = true)) ∧
       (o.category = "bounds" →
         (strContains t "<" = true ∨ strContains t "≤" = true ∨
          strContains t "index" = true)) ∧
       (o.category = "non_negativity" →
         (strContains t "≥ 0" = true ∨ strContains t ">= 0" = true))) := by
  unfold categoryIssues
  simp only [List.append_eq_nil, ite_eq_right_iff, List.cons_ne_nil, imp_false,
    Bool.and_eq_true, beq_iff_eq, Bool.not_eq_true', Bool.eq_false_iff]
  tauto

/-- C7: the semantic guard passes exactly when none of its failure
conditions holds (non-empty obligations, no whole-word skip marker outside
`--` comments, no case-insensitive `unsupported`, every top-level source
function name preceded by def/theorem/lemma/method in the artifact, and the
per-category encoding tokens present), and a failing guard with no
verification error and no unsupported constructs forces UNVERIFIED. -/
theorem c7_semantic_guard_contract (src : Option PyModule) (t : String)
    (obls : List Obligation) :
    ((run_semantic_guard src t obls).passed = true ↔
      (obls ≠ [] ∧
       containsSkipMarker t = false ∧
       strContains (lowerStr t) "unsupported" = false ∧
       (∀ fn ∈ top_level_function_names src, containsFunctionSymbol t fn = true) ∧
       (∀ o ∈ obls,
         (o.category = "uniqueness" →
           (strContains t "Nodup" = true ∨ strContains t "no_duplicates" = true)) ∧
         (o.category = "bounds" →
           (strContains t "<" = true ∨ strContains t "≤" = true ∨
            strContains t "index" = true)) ∧
         (o.category = "non_negativity" →
           (strContains t "≥ 0" = true ∨ strContains t ">= 0" = true))))) ∧
    (∀ s : VerificationSummary, s.verification_error = false →
      s.unsupported_constructs = [] → s.semantic_guard_passed = false →
      (compute_verdict s).verdict = Verdict.UNVERIFIED) := by
  constructor
  · unfold run_semantic_guard
    dsimp only
    rw [List.isEmpty_iff]
    simp only [List.append_eq_nil, List.filterMap_eq_nil_iff, foldr_append_eq_nil,
      categoryIssues_eq_nil_iff, ite_eq_right_iff, List.cons_ne_nil, imp_false,
      List.isEmpty_iff, Bool.not_eq_true', Bool.eq_false_iff,
      ite_eq_left_iff, reduceCtorEq, Decidable.not_not]
    constructor
    · intro h
      refine ⟨h.1.1.1.1, ?_, ?_, h.1.2, h.2⟩
      · simpa using h.1.1.1.2
      · simpa using h.1.1.2
    · intro h
      refine ⟨⟨⟨⟨h.1, ?_⟩, ?_⟩, h.2.2.2.1⟩, h.2.2.2.2⟩
      · simpa using h.2.1
      · simpa using h.2.2.1
  · intro s h1 h2 h3
    unfold compute_verdict
    simp only [h1, h2, h3, List.isEmpty_nil, Bool.not_true, Bool.not_false,
      Bool.false_eq_true, if_false, if_true]
    split_ifs <;> rfl

/-- C7 witness: the scenario-1 artifact passes the guard, and a guard-failed
summary yields UNVERIFIED. -/
theorem c7_witness :
    (run_semantic_guard (some withdrawModule) withdrawArtifact
      (derive (some withdrawModule)).obligations).passed = true ∧
    (compute_verdict ⟨[], true, [], false, false, false⟩).verdict =
      Verdict.UNVERIFIED := by
  constructor
  · apply (c7_semantic_guard_contract (some withdrawModule) withdrawArtifact
      (derive (some withdrawModule)).obligations).1.mpr
    refine ⟨by decide, by decide, by decide, by decide, by decide⟩
  · exact (c7_semantic_guard_contract (some withdrawModule) withdrawArtifact
      (derive (some withdrawModule)).obligations).2 _ rfl rfl rfl

theorem genOk_shape (p : Option String × String) (h : genOk p = true) :
    ∃ s, p.1 = some s ∧ s.isEmpty = false := by
  obtain ⟨fst, snd⟩ := p
  cases fst with
  | none => simp [genOk] at h
  | some s =>
    refine ⟨s, rfl, ?_⟩
    simp [genOk] at h
    simpa using h.1

theorem repairLoopGo_length_le (env : Env) (gen : Nat → Option String × String) :
    ∀ remaining i, (repairLoopGo env gen i remaining).attempts.length ≤ remaining
  | 0, _ => by simp [repairLoopGo]
  | remaining + 1, i => by
    unfold repairLoopGo
    dsimp only
    split_ifs with h
    · simp
    · simpa using Nat.succ_le_succ (repairLoopGo_length_le env gen remaining (i + 1))

theorem repairLoopGo_success_iff (env : Env) (gen : Nat → Option String × String) :
    ∀ remaining i, (repairLoopGo env gen i remaining).success = true ↔
      ∃ j, j < remaining ∧ genOk (generate_fix env gen (i + j)) = true
  | 0, i => by simp [repairLoopGo]
  | remaining + 1, i => by
    unfold repairLoopGo
    dsimp only
    split_ifs with h
    · constructor
      · intro _
        exact ⟨0, Nat.succ_pos _, by simpa using h⟩
      · intro _
        rfl
    · have ih := repairLoopGo_success_iff env gen remaining (i + 1)
      dsimp only
      constructor
      · intro hs
        obtain ⟨j, hj, hok⟩ := ih.mp hs
        refine ⟨j + 1, by omega, ?_⟩
        rwa [show i + (j + 1) = i + 1 + j by omega]
      · rintro ⟨j, hj, hok⟩
        cases j with
        | zero =>
          rw [Nat.add_zero] at hok
          exact absurd hok (by simpa using h)
        | succ j2 =>
          refine ih.mpr ⟨j2, by omega, ?_⟩
          rwa [show i + 1 + j2 = i + (j2 + 1) by omega]

theorem repairLoopGo_first_success (env : Env) (gen : Nat → Option String × String) :
    ∀ remaining i, (repairLoopGo env gen i remaining).success = true →
      (1 ≤ (repairLoopGo env gen i remaining).attempts.length ∧
       genOk (generate_fix env gen
         (i + (repairLoopGo env gen i remaining).attempts.length - 1)) = true ∧
       (∀ j, j + 1 < (repairLoopGo env gen i remaining).attempts.length →
         genOk (generate_fix env gen (i + j)) = false) ∧
       (repairLoopGo env gen i remaining).fixed_code =
         (generate_fix env gen
           (i + (repairLoopGo env gen i remaining).attempts.length - 1)).1)
  | 0, i => by simp [repairLoopGo]
  | remaining + 1, i => by
    unfold repairLoopGo
    dsimp only
    split_ifs with h
    · intro _
      refine ⟨by simp, ?_, ?_, ?_⟩
      · simpa using h
      · intro j hj
        simp at hj
      · simp
    · intro hs
      dsimp only at hs ⊢
      have ih := repairLoopGo_first_success env gen remaining (i + 1) hs
      obtain ⟨ih1, ih2, ih3, ih4⟩ := ih
      have hlen : i + ((repairLoopGo env gen (i + 1) remaining).attempts.length + 1) - 1 =
          i + 1 + (repairLoopGo env gen (i + 1) remaining).attempts.length - 1 := by omega
      refine ⟨by simp, ?_, ?_, ?_⟩
      · simpa [List.length_cons, hlen] using ih2
      · intro j hj
        cases j with
        | zero => simpa using h
        | succ j2 =>
          simp only [List.length_cons] at hj
          have := ih3 j2 (by omega)
          rwa [show i + (j2 + 1) = i + 1 + j2 by omega]
      · simpa [List.length_cons, hlen] using ih4

theorem repairLoopGo_success_fixed_nonempty (env : Env)
    (gen : Nat → Option String × String) :
    ∀ remaining i, (repairLoopGo env gen i remaining).success = true →
      ∃ f, (repairLoopGo env gen i remaining).fixed_code = some f ∧ f.isEmpty = false
  | 0, _ => by simp [repairLoopGo]
  | remaining + 1, i => by
    unfold repairLoopGo
    dsimp only
    split_ifs with h
    · intro _
      exact genOk_shape _ h
    · intro hs
      dsimp only at hs ⊢
      exact repairLoopGo_success_fixed_nonempty env gen remaining (i + 1) hs

theorem compute_verdict_ne_fixed (s : VerificationSummary) (h : s.repaired = false) :
    (compute_verdict s).verdict ≠ Verdict.FIXED := by
  unfold compute_verdict
  split_ifs <;> simp_all

/-- C8: the repair loop makes at most `max_attempts` generation calls
(default 3), succeeds exactly when some call in range returns a non-empty
reply without error, stops at the first success (all earlier attempts
failed, the successful reply is carried), and the pipeline reports FIXED
with the repaired code exactly when the baseline verdict is VULNERABLE with
no verification error, the repair loop succeeded, and the re-run of all
stages on the repaired source (repair disabled) yields VERIFIED or FIXED —
otherwise the original verdict stands. -/
theorem c8_repair_contract (env : Env) (gen : Nat → Option String × String)
    (N : Nat) (cfg : PipelineConfig) (orc : Oracles) (code : String)
    (hunsup : (pipe_policy orc code).unsupported_constructs = [])
    (htrans : (pipe_translation env orc code).success = true) :
    (repair_loop env gen N).attempts.length ≤ N ∧
    ((repair_loop env gen N).success = true ↔
      ∃ j, j < N ∧ genOk (generate_fix env gen (1 + j)) = true) ∧
    ((repair_loop env gen N).success = true →
      genOk (generate_fix env gen
        (1 + (repair_loop env gen N).attempts.length - 1)) = true ∧
      (∀ j, j + 1 < (repair_loop env gen N).attempts.length →
        genOk (generate_fix env gen (1 + j)) = false) ∧
      (repair_loop env gen N).fixed_code =
        (generate_fix env gen (1 + (repair_loop env gen N).attempts.length - 1)).1) ∧
    ({} : PipelineConfig).max_repair_attempts = 3 ∧
    repair_default_max_attempts = 3 ∧
    ((run_file cfg env orc true code).verdict = Verdict.FIXED ↔
      ((pipe_decision cfg env orc code).verdict = Verdict.VULNERABLE ∧
       (pipe_verification cfg env orc code).verification_error = false ∧
       (repair_loop env orc.repairGen cfg.max_repair_attempts).success = true ∧
       ((run_file_no_repair cfg env orc
           ((repair_loop env orc.repairGen cfg.max_repair_attempts).fixed_code.getD "")).verdict =
          Verdict.VERIFIED ∨
        (run_file_no_repair cfg env orc
           ((repair_loop env orc.repairGen cfg.max_repair_attempts).fixed_code.getD "")).verdict =
          Verdict.FIXED))) ∧
    ((run_file cfg env orc true code).verdict ≠ Verdict.FIXED →
      (run_file cfg env orc true code).verdict =
        (pipe_decision cfg env orc code).verdict) ∧
    ((run_file cfg env orc true code).verdict = Verdict.FIXED →
      (run_file cfg env orc true code).repaired_code =
        (repair_loop env orc.repairGen cfg.max_repair_attempts).fixed_code) := by
  have hcore := run_file_core_eq_main cfg env orc code hunsup htrans
  have hrf : run_file cfg env orc true code =
      run_file_main_result cfg env orc true (pipe_selection orc code)
        (pipe_verification cfg env orc code) (pipe_summary cfg env orc code)
        (pipe_decision cfg env orc code) := by
    unfold run_file
    rw [hcore]
  have hnf : (pipe_decision cfg env orc code).verdict ≠ Verdict.FIXED :=
    compute_verdict_ne_fixed _ rfl
  refine ⟨repairLoopGo_length_le env gen N 1, repairLoopGo_success_iff env gen N 1,
    fun hs => repairLoopGo_first_success env gen N 1 hs |>.2, rfl, rfl, ?_, ?_, ?_⟩
  all_goals rw [hrf]; unfold run_file_main_result; dsimp only
  · split_ifs with h1
    · rcases Bool.and_eq_true _ _ |>.mp h1 with ⟨h1a, h1c⟩
      rcases Bool.and_eq_true _ _ |>.mp h1a with ⟨h1b, _⟩
      have hdec : (pipe_decision cfg env orc code).verdict = Verdict.VULNERABLE :=
        beq_iff_eq.mp h1b
      have hverr : (pipe_verification cfg env orc code).verification_error = false := by
        simpa using h1c
      cases hfc : (repair_loop env orc.repairGen cfg.max_repair_attempts).fixed_code with
      | none =>
        dsimp only
        constructor
        · intro habs
          exact absurd habs hnf
        · rintro ⟨_, _, hsucc, _⟩
          obtain ⟨f, hf, _⟩ :=
            repairLoopGo_success_fixed_nonempty env orc.repairGen
              cfg.max_repair_attempts 1 hsucc
          rw [show repair_loop env orc.repairGen cfg.max_repair_attempts =
            repairLoopGo env orc.repairGen 1 cfg.max_repair_attempts from rfl] at hfc
          rw [hfc] at hf
          exact Option.noConfusion hf
      | some f =>
        dsimp only
        split_ifs with h2 h3
        · have hsucc : (repair_loop env orc.repairGen cfg.max_repair_attempts).success = true :=
            (Bool.and_eq_true _ _ |>.mp h2).1
          simp only [Option.getD_some]
          constructor
          · intro _
            refine ⟨hdec, hverr, hsucc, ?_⟩
            rcases Bool.or_eq_true _ _ |>.mp h3 with h | h
            · exact Or.inl (beq_iff_eq.mp h)
            · exact Or.inr (beq_iff_eq.mp h)
          · intro _
            trivial
        · simp only [Option.getD_some]
          constructor
          · intro habs
            exact absurd habs hnf
          · rintro ⟨_, _, _, hrr⟩
            rcases hrr with h | h
            · exact absurd h3 (by simp [h])
            · exact absurd h3 (by simp [h])
        · constructor
          · intro habs
            exact absurd habs hnf
          · rintro ⟨_, _, hsucc, _⟩
            obtain ⟨f2, hf2, hf2ne⟩ :=
              repairLoopGo_success_fixed_nonempty env orc.repairGen
                cfg.max_repair_attempts 1 hsucc
            rw [show repair_loop env orc.repairGen cfg.max_repair_attempts =
              repairLoopGo env orc.repairGen 1 cfg.max_repair_attempts from rfl] at hfc
            rw [hfc] at hf2
            have heq : f = f2 := by injection hf2
            subst heq
            exact (h2 (by simp [hsucc, hf2ne])).elim
    · have hnotall : ¬((pipe_decision cfg env orc code).verdict = Verdict.VULNERABLE ∧
          (pipe_verification cfg env orc code).verification_error = false) := by
        intro ⟨ha, hb⟩
        exact h1 (by simp [ha, hb])
      constructor
      · intro habs
        exact absurd habs hnf
      · rintro ⟨ha, hb, _, _⟩
        exact absurd ⟨ha, hb⟩ hnotall
  · split_ifs with h1
    · cases hfc : (repair_loop env orc.repairGen cfg.max_repair_attempts).fixed_code with
      | none => intro _; rfl
      | some f =>
        dsimp only
        split_ifs with h2 h3
        · intro habs
          exact absurd rfl habs
        · intro _; rfl
        · intro _; rfl
    · intro _; rfl
  · split_ifs with h1
    · cases hfc : (repair_loop env orc.repairGen cfg.max_repair_attempts).fixed_code with
      | none => intro habs; exact absurd habs hnf
      | some f =>
        dsimp only
        split_ifs with h2 h3
        · intro _
          rfl
        · intro habs
          exact absurd habs hnf
        · intro habs
          exact absurd habs hnf
    · intro habs
      exact absurd habs hnf

/-- C8 witness: the scenario-1 repair run — baseline VULNERABLE, first
repair call returns the guarded source, the re-run verifies, so the outer
verdict is FIXED and carries the repaired code. -/
theorem c8_witness :
    (pipe_policy repairOracles withdrawSrc).unsupported_constructs = [] ∧
    (pipe_translation demoEnvKey repairOracles withdrawSrc).success = true ∧
    (run_file demoCfg demoEnvKey repairOracles true withdrawSrc).verdict =
      Verdict.FIXED ∧
    (run_file demoCfg demoEnvKey repairOracles true withdrawSrc).repaired_code =
      some withdrawFixedSrc := by
  have hc := c8_repair_contract demoEnvKey repairOracles.repairGen 3 demoCfg
    repairOracles withdrawSrc (by decide) (by decide)
  have hfix : (run_file demoCfg demoEnvKey repairOracles true withdrawSrc).verdict =
      Verdict.FIXED :=
    hc.2.2.2.2.2.1.mpr ⟨by decide, by decide, by decide, Or.inl (by decide)⟩
  refine ⟨by decide, by decide, hfix, ?_⟩
  rw [hc.2.2.2.2.2.2.2 hfix]
  decide
